import Mathlib

/-!
# Verification of the Stellar Skies tool-calling chat engine

Shallow embedding of the conversation/tool-orchestration engine:
the tool registry in `app/api/chat/route.ts` (mock data pools, the
five tool `execute` functions, their zod input schemas, the step cap
`stopWhen: stepCountIs(7)`), and the client page (tool-part state
rendering, `toolActivations` counter, `handleSubmit` / `handleQuickPrompt`).

`Math.random()` draws are modelled by universally quantified streams
`rng : Nat → Nat`: the JS expression `Math.floor(Math.random() * n)`
ranges over exactly `{0, …, n-1}`, embedded as `rng i % n`.
-/

namespace StellarSkies

/-! ## Random sampling helpers (route.ts lines 9-19) -/

/-- `randomOf(items)` from route.ts: picks `items[Math.floor(Math.random() * items.length)]`.
The draw is the explicit argument `k`; the chosen index is `k % items.length`. -/
def randomOf {T : Type} [Inhabited T] (items : List T) (k : Nat) : T :=
  items.getD (k % items.length) default

/-- One destructuring swap `[pool[i], pool[j]] = [pool[j], pool[i]]` on a list;
out-of-bounds indices leave the list unchanged (never happens in `takeRandom`). -/
def listSwap {T : Type} (l : List T) (i j : Nat) : List T :=
  match l[i]?, l[j]? with
  | some a, some b => (l.set i b).set j a
  | _, _ => l

/-- The Fisher-Yates loop of `takeRandom`: `for (let i = pool.length - 1; i > 0; i--)`
swapping index `i` with `j = Math.floor(Math.random() * (i + 1))`, embedded as
`rng i % (i + 1)`. The fuel argument is the current loop index. -/
def fyLoop {T : Type} (rng : Nat → Nat) : Nat → List T → List T
  | 0, pool => pool
  | i + 1, pool => fyLoop rng i (listSwap pool (i + 1) (rng (i + 1) % (i + 2)))

/-- `takeRandom(items, count)` from route.ts: shuffle a copy of `items` in place,
then `pool.slice(0, Math.min(count, pool.length))`. -/
def takeRandom {T : Type} (rng : Nat → Nat) (items : List T) (count : Nat) : List T :=
  (fyLoop rng (items.length - 1) items).take (min count items.length)

/-! ## Mock data pools (route.ts lines 21-161) -/

def conditionPool : List String :=
  ["radiant auroras with sporadic ion gusts",
   "levitating mist and crystalline snowfall",
   "glittering micro-meteor drizzle",
   "calm plasma tide with soft starlight",
   "low-gravity fog banks swirling over the horizon",
   "polar light storms tracing the skyline",
   "nebula haze with intermittent gamma sparkles"]

def windPool : List String :=
  ["solar breeze at 18 mph",
   "ion drift steady at 9 mph",
   "crosswind bursts peaking at 24 mph",
   "mag-lev gusts oscillating at 12 mph",
   "vacuum pockets causing gentle downdrafts",
   "orbit-synced zephyrs circling at 15 mph"]

def radiationPool : List String :=
  ["radiation index 3 (shielded comfort)",
   "radiation index 5 (medium flare activity)",
   "radiation index 7 (reinforce hull plating)",
   "trace cosmic rays; recommend polarized lenses",
   "gamma sparkle showers (short exposure advised)"]

def advisoryPool : List String :=
  ["Visibility remains crystalline within 20 klicks.",
   "Flux monitors stable; optimal for sightseeing.",
   "Expect static buildup on exposed alloys.",
   "Great time for sub-orbital glides and photo ops.",
   "Solar sails may flutter—tighten your rigging.",
   "Recommended to enable adaptive gravity boots."]

inductive HazardSeverity where
  | low
  | elevated
  | critical
deriving DecidableEq, Repr, Inhabited

structure HazardScanItem where
  name : String
  severity : HazardSeverity
  guidance : String
deriving DecidableEq, Repr, Inhabited

def hazardPool : List HazardScanItem :=
  [⟨"Ion Storm Corridor", .critical,
    "Delay travel or increase shield harmonics by 30%."⟩,
   ⟨"Rogue Micro-Meteor Swarm", .elevated,
    "Activate kinetic deflectors; reduce speed under 300 knots."⟩,
   ⟨"Solar Flare Echo", .elevated,
    "Switch to reflective plating and route through the dusk-side."⟩,
   ⟨"Gravity Tide Surge", .critical,
    "Anchor vessels and reschedule landings two cycles later."⟩,
   ⟨"Frozen Plasma Sheen", .low,
    "Engage traction fields; watch for slick docking pads."⟩,
   ⟨"Resonant Aurora Current", .low,
    "Tune communicators to backup spectrum to avoid drift."⟩]

structure EventSeed where
  title : String
  detail : String
deriving DecidableEq, Repr, Inhabited

def eventPool : List EventSeed :=
  [⟨"Europa Ice Bloom",
    "Subsurface geysers crystallize mid-arc, refracting cerulean light."⟩,
   ⟨"Leviathan Comet Flyby",
    "A sapphire tail cuts across the sky—ideal for panoramic observation decks."⟩,
   ⟨"Titan Dune Choir",
    "Ion winds whistle across dunes, creating harmonic resonance at dusk."⟩,
   ⟨"Rings Bazaar Lightfall",
    "Saturn's rings cast shimmering patterns over local markets."⟩,
   ⟨"Aurora Cascade Pulse",
    "Aurora curtains ripple in layered waves, best seen at high altitude."⟩,
   ⟨"Neptune Halo Mirage",
    "An atmospheric reflection creates a ghostly second halo for six minutes."⟩]

def eventTimePool : List String :=
  ["Orbit 22.4",
   "GST + 02h",
   "Local dusk cycle",
   "Solar noon",
   "Three pulses past midnight",
   "Blue giant rising"]

structure NavigationWindow where
  label : String
  window : String
  note : String
deriving DecidableEq, Repr, Inhabited

def windowPool : List NavigationWindow :=
  [⟨"Calm Corridor", "21:10 - 22:05 GST",
    "Ion flux dips below 10%; ideal for docking maneuvers."⟩,
   ⟨"Polar Drift Lane", "04:40 - 05:35 GST",
    "Gravity tides neutralize, opening a smooth northbound path."⟩,
   ⟨"Sunrise Slipstream", "08:05 - 08:50 GST",
    "Solar sail efficiency peaks thanks to coherent breezes."⟩,
   ⟨"Nightglow Passage", "16:45 - 17:25 GST",
    "Nebula particulates thin out, boosting sensor clarity."⟩,
   ⟨"Crystalline Approach", "11:10 - 12:00 GST",
    "Docking pads defrost; minimal plasma sheen expected."⟩]

/-! ## Tool result types (route.ts lines 163-212) -/

structure WeatherResult where
  location : String
  temperature : Nat
  conditions : String
  wind : String
  radiation : String
  advisory : String
deriving DecidableEq, Repr, Inhabited

structure WeatherWearItem where
  title : String
  description : String
deriving DecidableEq, Repr, Inhabited

structure WeatherWear where
  suggestions : List WeatherWearItem
deriving DecidableEq, Repr, Inhabited

structure HazardScanReport where
  location : String
  riskLevel : HazardSeverity
  hazards : List HazardScanItem
deriving DecidableEq, Repr, Inhabited

structure CelestialEvent where
  title : String
  time : String
  detail : String
deriving DecidableEq, Repr, Inhabited

structure CelestialEventFeed where
  events : List CelestialEvent
deriving DecidableEq, Repr, Inhabited

structure NavigationWindowGuide where
  windows : List NavigationWindow
deriving DecidableEq, Repr, Inhabited

/-! ## Tool execute functions (route.ts lines 232-314) -/

/-- `weather.execute`: echoes the location and draws temperature
(`42 + Math.floor(Math.random() * 220)`) plus one entry from each pool. -/
def weather (r : Nat → Nat) (location : String) : WeatherResult :=
  { location := location
    temperature := 42 + r 0 % 220
    conditions := randomOf conditionPool (r 1)
    wind := randomOf windPool (r 2)
    radiation := randomOf radiationPool (r 3)
    advisory := randomOf advisoryPool (r 4) }

/-- `hazardScan.execute`: echoes the location, draws a risk level from the
three severities and three shuffled hazards (the `.map` re-spreads each
hazard with its own guidance, i.e. copies it field by field). -/
def hazardScan (rRisk : Nat) (rng : Nat → Nat) (location : String) : HazardScanReport :=
  { location := location
    riskLevel := randomOf [HazardSeverity.low, .elevated, .critical] rRisk
    hazards := (takeRandom rng hazardPool 3).map fun h =>
      { name := h.name, severity := h.severity, guidance := h.guidance } }

/-- `navigationWindows.execute`: three shuffled windows, each note suffixed
with `` ` (${location}).` ``. -/
def navigationWindows (rng : Nat → Nat) (location : String) : NavigationWindowGuide :=
  { windows := (takeRandom rng windowPool 3).map fun w =>
      { label := w.label, window := w.window
        note := w.note ++ " (" ++ location ++ ")." } }

/-- `celestialEvents.execute`: three shuffled events, each given a random
time; its `async () => …` body never reads the validated `location`. -/
def celestialEvents (rng rT : Nat → Nat) (location : String) : CelestialEventFeed :=
  { events := (takeRandom rng eventPool 3).mapIdx fun i e =>
      { title := e.title, time := randomOf eventTimePool (rT i), detail := e.detail } }

/-- The zod input schema of `whatToWear`:
`z.array(z.object({title, description})).min(1).max(3)`; on success the
execute function echoes the validated suggestions. The error string is the
`InvalidArgumentsError` message surfaced as `errorText`. -/
def whatToWearValidate (suggestions : List WeatherWearItem) : Except String WeatherWear :=
  if suggestions.length < 1 then
    .error "InvalidArgumentsError: suggestions must contain at least 1 element(s)"
  else if suggestions.length > 3 then
    .error "InvalidArgumentsError: suggestions must contain at most 3 element(s)"
  else
    .ok { suggestions := suggestions }

/-! ## Lemmas about the sampling helpers -/

theorem randomOf_mem {T : Type} [Inhabited T] (items : List T) (k : Nat)
    (h : items ≠ []) : randomOf items k ∈ items := by
  have hl : 0 < items.length := List.length_pos.mpr h
  have hk : k % items.length < items.length := Nat.mod_lt _ hl
  rw [randomOf, List.getD_eq_getElem?_getD, List.getElem?_eq_getElem hk]
  exact List.getElem_mem hk

theorem listSwap_length {T : Type} (l : List T) (i j : Nat) :
    (listSwap l i j).length = l.length := by
  rw [listSwap]
  rcases h1 : l[i]? with _ | a <;> rcases h2 : l[j]? with _ | b <;> simp

theorem mem_of_mem_listSwap {T : Type} {l : List T} {i j : Nat} {x : T}
    (hx : x ∈ listSwap l i j) : x ∈ l := by
  rw [listSwap] at hx
  rcases h1 : l[i]? with _ | a <;> rcases h2 : l[j]? with _ | b <;>
    rw [h1, h2] at hx
  · exact hx
  · exact hx
  · exact hx
  · rcases List.mem_or_eq_of_mem_set hx with hx' | rfl
    · rcases List.mem_or_eq_of_mem_set hx' with hx'' | rfl
      · exact hx''
      · exact List.getElem?_mem h2
    · exact List.getElem?_mem h1

theorem fyLoop_length {T : Type} (rng : Nat → Nat) (n : Nat) (pool : List T) :
    (fyLoop rng n pool).length = pool.length := by
  induction n generalizing pool with
  | zero => rfl
  | succ i ih => rw [fyLoop, ih, listSwap_length]

theorem mem_of_mem_fyLoop {T : Type} {rng : Nat → Nat} {n : Nat} {pool : List T}
    {x : T} (hx : x ∈ fyLoop rng n pool) : x ∈ pool := by
  induction n generalizing pool with
  | zero => exact hx
  | succ i ih => exact mem_of_mem_listSwap (ih hx)

theorem takeRandom_length {T : Type} (rng : Nat → Nat) (items : List T)
    (count : Nat) : (takeRandom rng items count).length = min count items.length := by
  rw [takeRandom, List.length_take, fyLoop_length]
  omega

theorem mem_of_mem_takeRandom {T : Type} {rng : Nat → Nat} {items : List T}
    {count : Nat} {x : T} (hx : x ∈ takeRandom rng items count) : x ∈ items :=
  mem_of_mem_fyLoop (List.mem_of_mem_take hx)

/-! ## Transcript data model (spec §3, client rendering in the page component) -/

/-- The four `ToolPart` states of the UI message protocol
(`input-streaming`, `input-available`, `output-available`, `output-error`). -/
inductive ToolState where
  | inputStreaming
  | inputAvailable
  | outputAvailable
  | outputError
deriving DecidableEq, Repr, Inhabited

/-- A settled tool output: one of the five tools' structured results. -/
inductive ToolOutput where
  | weatherOut (w : WeatherResult)
  | hazardOut (h : HazardScanReport)
  | navOut (n : NavigationWindowGuide)
  | eventsOut (e : CelestialEventFeed)
  | wearOut (w : WeatherWear)
deriving DecidableEq, Repr

/-- `ToolPart`: tool name, state, optional output (only in `output-available`)
and optional error text (only in `output-error`). -/
structure ToolPart where
  toolName : String
  state : ToolState
  output : Option ToolOutput
  errorText : Option String
deriving DecidableEq, Repr

/-- A message part: a text fragment or a tool invocation record. -/
inductive Part where
  | text (t : String)
  | tool (p : ToolPart)
deriving DecidableEq, Repr

inductive Role where
  | user
  | assistant
deriving DecidableEq, Repr

structure Message where
  id : String
  role : Role
  parts : List Part
deriving DecidableEq, Repr

/-- The `type` string a part carries in the UI message protocol, as matched by
the page component (`"text"`, `"tool-weather"`, `"tool-whatToWear"`, …). -/
def partTypeStr : Part → String
  | .text _ => "text"
  | .tool p => "tool-" ++ p.toolName

/-- JS `String.prototype.startsWith`: character-level prefix test. -/
def strStartsWith (s pre : String) : Bool :=
  pre.data.isPrefixOf s.data

/-- The `state` field a part exposes; text parts have none (JS `undefined`). -/
def partStateOf : Part → Option ToolState
  | .text _ => none
  | .tool p => some p.state

/-- `toolActivations` from the page component: a `reduce` over all messages
counting the parts whose `type` starts with `"tool-"` and whose `state` is
`"output-available"`. -/
def toolActivations (messages : List Message) : Nat :=
  messages.foldl (fun count m =>
    count + (m.parts.filter fun p =>
      strStartsWith (partTypeStr p) "tool-" &&
        partStateOf p == some .outputAvailable).length) 0

/-- The consumer-contract reading of the "tool runs" metric (spec §6): the
number of parts across all messages whose state is `output-available`. -/
def outputAvailableCount (messages : List Message) : Nat :=
  (messages.map fun m =>
    (m.parts.filter fun p => partStateOf p == some .outputAvailable).length).sum

/-! ## Tool registry and turn orchestrator

The reasoning loop itself is executed by the AI SDK (`streamText`), not by
repository code; its behaviour is modelled from spec §4.1-§4.2 and §7. The
step cap and the tool set are taken from `route.ts`
(`stopWhen: stepCountIs(7)` and the `tools:` record). -/

/-- The step cap configured in route.ts: `stopWhen: stepCountIs(7)`. -/
def stepCap : Nat := 7

/-- The response wall-clock ceiling configured in route.ts:
`export const maxDuration = 30` (seconds). -/
def maxDuration : Nat := 30

/-- The names registered in the `tools:` record of `streamText`. -/
def registryNames : List String :=
  ["weather", "hazardScan", "navigationWindows", "celestialEvents", "whatToWear"]

/-- Raw arguments for a tool call: either a `{ location }` object or a
`{ suggestions }` object, matching the two zod input schemas in route.ts. -/
inductive ToolArgs where
  | locationArg (location : String)
  | suggestionsArg (suggestions : List WeatherWearItem)
deriving DecidableEq, Repr

/-- Modelled from the spec: §4.1 `invoke(name, rawArgs)` — validate the
arguments against the tool's zod schema, then run the tool's `execute` from
route.ts; an error value carries the `InvalidArgumentsError` message that
becomes `errorText`. The stream `r` supplies this call's random draws. -/
def invokeTool (r : Nat → Nat) (name : String) (args : ToolArgs) :
    Except String ToolOutput :=
  match name, args with
  | "weather", .locationArg loc => .ok (.weatherOut (weather r loc))
  | "hazardScan", .locationArg loc =>
      .ok (.hazardOut (hazardScan (r 0) (fun i => r (i + 1)) loc))
  | "navigationWindows", .locationArg loc => .ok (.navOut (navigationWindows r loc))
  | "celestialEvents", .locationArg loc =>
      .ok (.eventsOut (celestialEvents r (fun i => r (i + 50)) loc))
  | "whatToWear", .suggestionsArg items =>
      match whatToWearValidate items with
      | .ok w => .ok (.wearOut w)
      | .error msg => .error msg
  | _, _ => .error "InvalidArgumentsError: arguments do not match the tool input schema"

/-- Modelled from the spec: §9 `Planner.nextStep` — each reasoning step
either emits text, calls one tool, or stops. -/
inductive PlannerAction where
  | emitText (t : String)
  | callTool (name : String) (args : ToolArgs)
  | stop

/-- Outcome of one assistant response: the parts produced, the number of
reasoning steps taken, and whether the response reached `Done`
(`done = false` only on the response-level `UnknownToolError`, spec §7). -/
structure Outcome where
  parts : List Part
  reasoningSteps : Nat
  done : Bool

/-- Modelled from the spec: §4.2 the reasoning loop run by the AI SDK.
Each iteration consults the planner; `stop` ends the response, text and
tool-call actions append a part and recurse on the remaining step budget
(`stopWhen: stepCountIs(7)` makes the budget finite). A tool call resolves
through `invokeTool`: success yields an `output-available` part, failure an
`output-error` part with the message as `errorText` — the loop continues
either way. An unregistered tool name is a response-level failure. -/
def runFrom (planner : List Part → PlannerAction) (rng : Nat → Nat → Nat) :
    Nat → List Part → Outcome
  | 0, parts => ⟨parts, 0, true⟩
  | b + 1, parts =>
    match planner parts with
    | .stop => ⟨parts, 0, true⟩
    | .emitText t =>
        let o := runFrom planner rng b (parts ++ [.text t])
        ⟨o.parts, o.reasoningSteps + 1, o.done⟩
    | .callTool name args =>
        if name ∈ registryNames then
          let part : ToolPart :=
            match invokeTool (rng b) name args with
            | .ok out => ⟨name, .outputAvailable, some out, none⟩
            | .error msg => ⟨name, .outputError, none, some msg⟩
          let o := runFrom planner rng b (parts ++ [.tool part])
          ⟨o.parts, o.reasoningSteps + 1, o.done⟩
        else
          ⟨parts, 1, false⟩

/-- One assistant response: run the reasoning loop from an empty part list
with the step budget `stepCap = 7` from route.ts. -/
def runResponse (planner : List Part → PlannerAction) (rng : Nat → Nat → Nat) : Outcome :=
  runFrom planner rng stepCap []

/-- Modelled from the spec: §3 the legal `ToolPart` state transitions —
`input-streaming → input-available → (output-available | output-error)`,
as maintained by the AI SDK stream and matched by the page component. -/
def toolStateStep : ToolState → ToolState → Bool
  | .inputStreaming, .inputAvailable => true
  | .inputAvailable, .outputAvailable => true
  | .inputAvailable, .outputError => true
  | _, _ => false

/-! ## Client input gating (page component) -/

/-- Client state relevant to sending: the draft text and whether a response
is in flight (`status === "streaming" || status === "loading"`). -/
structure UIState where
  input : String
  isStreaming : Bool
deriving DecidableEq, Repr

/-- `handleSubmit` from the page component: returns the message sent, if any —
`if (!trimmed || isStreaming) return;` guards the send. -/
def handleSubmit (s : UIState) : Option String :=
  let trimmed := s.input.trim
  if trimmed = "" || s.isStreaming then none else some trimmed

/-- `handleQuickPrompt` from the page component: calls
`sendMessage({ text: prompt })` unconditionally, then refocuses the input. -/
def handleQuickPrompt (s : UIState) (prompt : String) : Option String :=
  some prompt

/-! ## Helper lemmas for the claim theorems -/

theorem randomOf_ne_empty (items : List String) (k : Nat)
    (hne : items ≠ []) (hall : ∀ s ∈ items, s ≠ "") : randomOf items k ≠ "" :=
  hall _ (randomOf_mem items k hne)

theorem strStartsWith_append (s t : String) : strStartsWith (s ++ t) s = true := by
  rw [strStartsWith, String.data_append]
  exact List.isPrefixOf_iff_prefix.mpr (List.prefix_append _ _)

theorem part_filter_eq (parts : List Part) :
    (parts.filter fun p =>
      strStartsWith (partTypeStr p) "tool-" &&
        (partStateOf p == some ToolState.outputAvailable)) =
    (parts.filter fun p => partStateOf p == some ToolState.outputAvailable) := by
  apply List.filter_congr
  intro p _
  cases p with
  | text t => simp [partStateOf]
  | tool tp => simp [partTypeStr, strStartsWith_append]

theorem foldl_count_eq_sum (h : Message → Nat) (l : List Message) (a : Nat) :
    l.foldl (fun c m => c + h m) a = a + (l.map h).sum := by
  induction l generalizing a with
  | nil => simp
  | cons m t ih => simp [List.foldl_cons, ih]; omega

/-! ## Claim theorems -/

/-- C3: for every random stream and input location, the weather tool echoes
the location, returns a temperature between 42 and 261 inclusive, and
non-empty conditions, wind, radiation and advisory strings. -/
theorem weather_contract (r : Nat → Nat) (location : String) :
    (weather r location).location = location ∧
    42 ≤ (weather r location).temperature ∧
    (weather r location).temperature ≤ 261 ∧
    (weather r location).conditions ≠ "" ∧
    (weather r location).wind ≠ "" ∧
    (weather r location).radiation ≠ "" ∧
    (weather r location).advisory ≠ "" := by
  refine ⟨rfl, ?_, ?_, ?_, ?_, ?_, ?_⟩
  · exact Nat.le_add_right 42 _
  · have : r 0 % 220 < 220 := Nat.mod_lt _ (by omega)
    show 42 + r 0 % 220 ≤ 261
    omega
  · exact randomOf_ne_empty conditionPool (r 1) (by decide) (by decide)
  · exact randomOf_ne_empty windPool (r 2) (by decide) (by decide)
  · exact randomOf_ne_empty radiationPool (r 3) (by decide) (by decide)
  · exact randomOf_ne_empty advisoryPool (r 4) (by decide) (by decide)

/-- C4: the hazard, window and event lists each have at most 3 entries, and
a suggestions list accepted by the whatToWear schema has between 1 and 3
entries (echoed unchanged by its execute function). -/
theorem tool_list_bounds (rRisk : Nat) (rng rT : Nat → Nat) (loc : String)
    (items : List WeatherWearItem) (out : WeatherWear)
    (hv : whatToWearValidate items = .ok out) :
    (hazardScan rRisk rng loc).hazards.length ≤ 3 ∧
    (navigationWindows rng loc).windows.length ≤ 3 ∧
    (celestialEvents rng rT loc).events.length ≤ 3 ∧
    1 ≤ out.suggestions.length ∧ out.suggestions.length ≤ 3 := by
  refine ⟨?_, ?_, ?_, ?_⟩
  · simp [hazardScan, takeRandom_length, hazardPool]
  · simp [navigationWindows, takeRandom_length, windowPool]
  · simp [celestialEvents, takeRandom_length, eventPool]
  · rw [whatToWearValidate] at hv
    split_ifs at hv with h1 h2
    cases hv
    refine ⟨?_, ?_⟩
    · show 1 ≤ items.length
      omega
    · show items.length ≤ 3
      omega

/-- Witness for C4 at a concrete accepted input. -/
theorem tool_list_bounds_witness :
    whatToWearValidate [⟨"Thermal suit", "Heated shell with mag boots"⟩] =
      .ok ⟨[⟨"Thermal suit", "Heated shell with mag boots"⟩]⟩ ∧
    ((hazardScan 0 (fun _ => 0) "Titan").hazards.length ≤ 3 ∧
     (navigationWindows (fun _ => 0) "Titan").windows.length ≤ 3 ∧
     (celestialEvents (fun _ => 0) (fun _ => 0) "Titan").events.length ≤ 3 ∧
     1 ≤ (WeatherWear.mk [⟨"Thermal suit", "Heated shell with mag boots"⟩]).suggestions.length ∧
     (WeatherWear.mk [⟨"Thermal suit", "Heated shell with mag boots"⟩]).suggestions.length ≤ 3) :=
  ⟨rfl, tool_list_bounds 0 (fun _ => 0) (fun _ => 0) "Titan"
    [⟨"Thermal suit", "Heated shell with mag boots"⟩]
    ⟨[⟨"Thermal suit", "Heated shell with mag boots"⟩]⟩ rfl⟩

/-- C9: every window returned by navigationWindows carries a note that is one
of the five pool notes with `" (" ++ location ++ ")."` appended, so the input
location appears verbatim in each note. -/
theorem navigationWindows_note (rng : Nat → Nat) (location : String)
    (w : NavigationWindow) (hw : w ∈ (navigationWindows rng location).windows) :
    ∃ b ∈ windowPool, w.note = b.note ++ " (" ++ location ++ ")." := by
  simp only [navigationWindows, List.mem_map] at hw
  obtain ⟨b, hb, rfl⟩ := hw
  exact ⟨b, mem_of_mem_takeRandom hb, rfl⟩

/-- Witness for C9 at a concrete random stream and location. -/
theorem navigationWindows_note_witness :
    (⟨"Polar Drift Lane", "04:40 - 05:35 GST",
      "Gravity tides neutralize, opening a smooth northbound path. (Titan)."⟩ : NavigationWindow)
      ∈ (navigationWindows (fun _ => 0) "Titan").windows ∧
    ∃ b ∈ windowPool,
      (⟨"Polar Drift Lane", "04:40 - 05:35 GST",
        "Gravity tides neutralize, opening a smooth northbound path. (Titan)."⟩ :
          NavigationWindow).note = b.note ++ " (" ++ "Titan" ++ ")." :=
  ⟨by decide, navigationWindows_note (fun _ => 0) "Titan" _ (by decide)⟩

/-- C10: the celestialEvents output is independent of the location input —
for the same random draws, two invocations with different locations are
identical, because its execute body never reads the location. -/
theorem celestialEvents_location_independent (rng rT : Nat → Nat)
    (l1 l2 : String) (h : l1 ≠ l2) :
    celestialEvents rng rT l1 = celestialEvents rng rT l2 := rfl

/-- Witness for C10 at two concrete distinct locations. -/
theorem celestialEvents_location_independent_witness :
    ("Titan" : String) ≠ "Europa" ∧
    celestialEvents (fun _ => 0) (fun _ => 0) "Titan" =
      celestialEvents (fun _ => 0) (fun _ => 0) "Europa" :=
  ⟨by decide,
   celestialEvents_location_independent (fun _ => 0) (fun _ => 0) "Titan" "Europa" (by decide)⟩

/-- C7: the client's "tool runs" metric (`toolActivations`) equals the number
of parts across all messages whose state is `output-available`, and counts
nothing else. -/
theorem toolActivations_eq (messages : List Message) :
    toolActivations messages = outputAvailableCount messages := by
  rw [toolActivations, outputAvailableCount]
  simp only [part_filter_eq]
  rw [foldl_count_eq_sum]
  omega

/-- C6 counterexample: it is not the case that every send operation is
rejected while a response is streaming — `handleQuickPrompt` sends its
prompt unconditionally, even with `isStreaming = true`. -/
theorem quickPrompt_not_gated :
    ¬ ∀ (s : UIState) (prompt : String), s.isStreaming = true →
        handleSubmit s = none ∧ handleQuickPrompt s prompt = none := by
  intro h
  have := (h ⟨"", true⟩ "Europa dive briefing" rfl).2
  simp [handleQuickPrompt] at this

/-- C6 amended: while a response is streaming, the form-submit path rejects
the message (`handleSubmit` sends nothing); the quick-prompt path is not
gated. -/
theorem handleSubmit_gated (s : UIState) (h : s.isStreaming = true) :
    handleSubmit s = none := by
  rw [handleSubmit]
  simp [h]

/-- Witness for the amended C6 at a concrete streaming state. -/
theorem handleSubmit_gated_witness :
    (UIState.mk "weather on Titan" true).isStreaming = true ∧
    handleSubmit ⟨"weather on Titan", true⟩ = none :=
  ⟨rfl, handleSubmit_gated ⟨"weather on Titan", true⟩ rfl⟩

theorem runFrom_steps_le (planner : List Part → PlannerAction)
    (rng : Nat → Nat → Nat) (b : Nat) (parts : List Part) :
    (runFrom planner rng b parts).reasoningSteps ≤ b := by
  induction b generalizing parts with
  | zero => exact Nat.le_refl 0
  | succ n ih =>
    rw [runFrom]
    cases planner parts with
    | stop => exact Nat.zero_le _
    | emitText t => exact Nat.succ_le_succ (ih _)
    | callTool name args =>
      by_cases hn : name ∈ registryNames
      · simp only [if_pos hn]
        exact Nat.succ_le_succ (ih _)
      · simp only [if_neg hn]
        omega

/-- C1: for every planner and random source, one assistant response under
the configured `stopWhen: stepCountIs(7)` takes at most 7 reasoning steps
before reaching Done. -/
theorem response_steps_le_seven (planner : List Part → PlannerAction)
    (rng : Nat → Nat → Nat) :
    (runResponse planner rng).reasoningSteps ≤ 7 :=
  runFrom_steps_le planner rng stepCap []

/-- C2: every observed ToolPart state trace — a nonempty chain that starts at
`input-streaming` and moves only along the legal transitions — is a prefix of
`[input-streaming, input-available, output-available]` or of
`[input-streaming, input-available, output-error]`: no state skipped, no
backward move, and the two terminal states never both occur. -/
theorem toolPart_trace_prefix (tr : List ToolState)
    (h0 : tr.head? = some ToolState.inputStreaming)
    (hch : List.Chain' (fun a b => toolStateStep a b = true) tr) :
    tr <+: [ToolState.inputStreaming, .inputAvailable, .outputAvailable] ∨
    tr <+: [ToolState.inputStreaming, .inputAvailable, .outputError] := by
  match tr, h0, hch with
  | [a], h0, _ =>
    cases h0
    left
    exact ⟨[ToolState.inputAvailable, .outputAvailable], rfl⟩
  | [a, b], h0, hch =>
    cases h0
    have hab := (List.chain'_cons.mp hch).1
    cases b <;> simp [toolStateStep] at hab
    left
    exact ⟨[ToolState.outputAvailable], rfl⟩
  | [a, b, c], h0, hch =>
    cases h0
    have hab := (List.chain'_cons.mp hch).1
    have hbc := (List.chain'_cons.mp (List.chain'_cons.mp hch).2).1
    cases b <;> simp [toolStateStep] at hab
    cases c <;> simp [toolStateStep] at hbc
    · left
      exact List.prefix_refl _
    · right
      exact List.prefix_refl _
  | a :: b :: c :: d :: rest, h0, hch =>
    cases h0
    have hab := (List.chain'_cons.mp hch).1
    have hbc := (List.chain'_cons.mp (List.chain'_cons.mp hch).2).1
    have hcd :=
      (List.chain'_cons.mp (List.chain'_cons.mp (List.chain'_cons.mp hch).2).2).1
    cases b <;> simp [toolStateStep] at hab
    cases c <;> simp [toolStateStep] at hbc <;>
      cases d <;> simp [toolStateStep] at hcd

/-- Witness for C2 at the concrete full trace ending in `output-available`. -/
theorem toolPart_trace_prefix_witness :
    ([ToolState.inputStreaming, .inputAvailable,
        .outputAvailable] : List ToolState).head? = some ToolState.inputStreaming ∧
    (([ToolState.inputStreaming, .inputAvailable, .outputAvailable] : List ToolState) <+:
        [ToolState.inputStreaming, .inputAvailable, .outputAvailable] ∨
     ([ToolState.inputStreaming, .inputAvailable, .outputAvailable] : List ToolState) <+:
        [ToolState.inputStreaming, .inputAvailable, .outputError]) :=
  ⟨rfl, toolPart_trace_prefix _ rfl
    (List.chain'_cons.mpr ⟨rfl, List.chain'_cons.mpr ⟨rfl, List.chain'_singleton _⟩⟩)⟩

/-- A planner that calls whatToWear once with the given suggestions, then
stops: the scenario of spec §8 with an oversized suggestions list. -/
def wwPlanner (items : List WeatherWearItem) : List Part → PlannerAction :=
  fun parts =>
    if parts.isEmpty then .callTool "whatToWear" (.suggestionsArg items) else .stop

/-- C5: invoking whatToWear with a 4-entry suggestions list fails schema
validation; the ToolPart ends in `output-error` with a non-empty errorText,
and the response still reaches Done. -/
theorem whatToWear_invalid_four (items : List WeatherWearItem)
    (rng : Nat → Nat → Nat) (h : items.length = 4) :
    (runResponse (wwPlanner items) rng).done = true ∧
    (runResponse (wwPlanner items) rng).parts =
      [Part.tool ⟨"whatToWear", .outputError, none,
        some "InvalidArgumentsError: suggestions must contain at most 3 element(s)"⟩] ∧
    "InvalidArgumentsError: suggestions must contain at most 3 element(s)" ≠ "" := by
  have hv : whatToWearValidate items =
      .error "InvalidArgumentsError: suggestions must contain at most 3 element(s)" := by
    rw [whatToWearValidate, h]
    rfl
  refine ⟨?_, ?_, by decide⟩ <;>
    simp [runResponse, stepCap, runFrom, wwPlanner, invokeTool, hv, registryNames]

/-- Witness for C5 at a concrete 4-entry suggestions list. -/
theorem whatToWear_invalid_four_witness :
    ([⟨"Helmet", "Sealed"⟩, ⟨"Suit", "Thermal"⟩, ⟨"Boots", "Magnetic"⟩,
        ⟨"Visor", "Polarized"⟩] : List WeatherWearItem).length = 4 ∧
    ((runResponse (wwPlanner [⟨"Helmet", "Sealed"⟩, ⟨"Suit", "Thermal"⟩,
        ⟨"Boots", "Magnetic"⟩, ⟨"Visor", "Polarized"⟩]) (fun _ _ => 0)).done = true ∧
     (runResponse (wwPlanner [⟨"Helmet", "Sealed"⟩, ⟨"Suit", "Thermal"⟩,
        ⟨"Boots", "Magnetic"⟩, ⟨"Visor", "Polarized"⟩]) (fun _ _ => 0)).parts =
       [Part.tool ⟨"whatToWear", .outputError, none,
         some "InvalidArgumentsError: suggestions must contain at most 3 element(s)"⟩] ∧
     "InvalidArgumentsError: suggestions must contain at most 3 element(s)" ≠ "") :=
  ⟨rfl, whatToWear_invalid_four
    [⟨"Helmet", "Sealed"⟩, ⟨"Suit", "Thermal"⟩, ⟨"Boots", "Magnetic"⟩,
      ⟨"Visor", "Polarized"⟩] (fun _ _ => 0) rfl⟩

end StellarSkies
